import Mathlib

/-!
# bhj-diploma: CreateTransactionForm and TransactionsPage

A shallow embedding of `src/public/js/ui/forms/CreateTransactionForm.js` and
`src/public/js/ui/pages/TransactionsPage.js`.

The two classes mutate a handful of places: the field `this.lastOptions`, the
markup (`innerHTML`) of `.content` and of `.accounts-select`, the text of
`.content-title`; and they call collaborators that live outside the two files
(`Account`, `Transaction`, `App`, the form element). The embedding passes one
record `World` holding those places, the log of requests handed to
`Account` / `Transaction` and the log of calls made to `App` and to the form.
A method is a function `World → World` (with a completion when it can throw or
when its return value matters). The anonymous callbacks given to the
collaborators are functions of the response they receive, run later by the
event loop. `confirm()` is the boolean answer of the user.

Conventions of the embedding:

* `World.content` and `World.select` hold what the `innerHTML` getter of the element
  returns. Assigning `innerHTML = s` parses `s` into the element and the getter then
  serialises the parsed children, so the held markup becomes the host's read-back of
  `s` (`Browser.readBackContent`, `Browser.readBackSelect`); `x.innerHTML += s` is
  `x.innerHTML = x.innerHTML + s`, the read-back of the held markup followed by `s`.
  The one fact assumed of the host is that the empty markup reads back empty;
* `textContent` is held as the string last written to it;
* the elements looked up with `querySelector` exist;
* a collaborator is either defined or not (`Globals`): calling a method of an
  undefined one throws a `ReferenceError` at that point of the method, a defined
  one records the request and returns, and runs the callback later;
* `App.update()`, `reset()` and `getModal(name).close()` are recorded in the
  order they are made;
* `toLocaleString` and `toLowerCase` are functions supplied by the host
  (`Browser`), like the read-back of `innerHTML`.
-/

namespace BhjDiploma

/-- A JavaScript slot holding `undefined`, `null` or an object. -/
inductive JSRef (α : Type) where
  | undefined : JSRef α
  | null : JSRef α
  | obj (v : α) : JSRef α
  deriving DecidableEq, Repr

/-- JavaScript truthiness of a slot: `undefined` and `null` are falsy, every object is truthy. -/
def JSRef.truthy {α : Type} : JSRef α → Bool
  | .obj _ => true
  | _ => false

/-- Account `{ id, name }` as delivered by `Account.list` / `Account.get`. -/
structure Account where
  id : String
  name : String
  deriving DecidableEq, Repr

/-- Transaction `{ id, type, name, sum, created_at }` as delivered by `Transaction.list`;
each field is the text its template interpolation produces. -/
structure Transaction where
  id : String
  type_ : String
  name : String
  sum : String
  created_at : String
  deriving DecidableEq, Repr

/-- The `options` object given to `render`: `{ account_id }`. -/
structure Options where
  account_id : String
  deriving DecidableEq, Repr

/-- Response of `Account.list`: `{ success, data }`, the `data` field possibly missing. -/
structure AccountListResponse where
  success : Bool
  data : Option (List Account)
  deriving DecidableEq, Repr

/-- Response of `Account.get`: `{ success, data }`, the `data` field possibly missing. -/
structure AccountGetResponse where
  success : Bool
  data : Option Account
  deriving DecidableEq, Repr

/-- Response of `Transaction.list`: `{ success, data }`, the `data` field possibly missing. -/
structure TransactionListResponse where
  success : Bool
  data : Option (List Transaction)
  deriving DecidableEq, Repr

/-- Response of `Account.remove`, `Transaction.remove`, `Transaction.create`: `{ success }`. -/
structure StatusResponse where
  success : Bool
  deriving DecidableEq, Repr

/-- A request handed to the `Account` or `Transaction` collaborator. -/
inductive Request where
  | accountList (user : JSRef String)
  | accountGet (id : String)
  | accountRemove (id : String)
  | transactionCreate (data : List (String × String))
  | transactionList (options : Options)
  | transactionRemove (id : String)
  deriving DecidableEq, Repr

/-- A call made to `App` or to the form element. -/
inductive Effect where
  | appUpdate
  | formReset
  | modalClose (name : String)
  deriving DecidableEq, Repr

/-- How a call ends: it returns `undefined`, returns `null`, or throws. -/
inductive Completion where
  | undefined
  | null
  | threw (error : String)
  deriving DecidableEq, Repr

/-- Which of the global collaborators are defined, and what `User.current()` answers. -/
structure Globals where
  hasAccount : Bool
  hasTransaction : Bool
  currentUser : JSRef String
  deriving DecidableEq, Repr

/-- The host functions the two classes rely on:
`Date.prototype.toLocaleString('ru', ...)` with the day options and with the time options,
`String.prototype.toLowerCase`, and for the `.accounts-select` and the `.content` element the
markup the `innerHTML` getter returns once the setter was given a string (the serialisation of
what the string was parsed into). The empty string parses into no children, which serialise
to the empty string. -/
structure Browser where
  localeDay : String → String
  localeTime : String → String
  toLowerCase : String → String
  readBackSelect : String → String
  readBackContent : String → String
  readBackSelect_empty : readBackSelect "" = ""
  readBackContent_empty : readBackContent "" = ""

/-- Everything the two classes read and write. -/
structure World where
  lastOptions : JSRef Options
  content : String
  title : String
  select : String
  requests : List Request
  effects : List Effect
  deriving DecidableEq, Repr

/-- The document a page is constructed over. -/
structure Dom where
  content : String
  title : String
  select : String
  deriving DecidableEq, Repr

/-! ## CreateTransactionForm -/

namespace CreateTransactionForm

/-- `addItemToTheList(item)`: `accountSelect.innerHTML += <option value="id">name</option>`,
that is, the setter is given the held markup followed by the fragment. -/
def addItemToTheList (b : Browser) (item : Account) (w : World) : World :=
  { w with
    select :=
      b.readBackSelect
        (w.select ++ ("<option value=\"" ++ item.id ++ "\">" ++ item.name ++ "</option>")) }

/-- The callback `(err, response) => ...` given to `Account.list` in `renderAccountsList`:
when the response and its `data` are truthy, `accountSelect.innerHTML = ''`, then
`addItemToTheList` for each element of `data`. -/
def renderAccountsListCallback (b : Browser) (response : Option AccountListResponse)
    (w : World) : World :=
  match response with
  | none => w
  | some r =>
    match r.data with
    | none => w
    | some data =>
      data.foldl (fun acc elem => addItemToTheList b elem acc)
        { w with select := b.readBackSelect "" }

/-- `renderAccountsList()`: hands `Account.list(User.current(), callback)` to the collaborator. -/
def renderAccountsList (g : Globals) (w : World) : World × Completion :=
  if g.hasAccount then
    ({ w with requests := w.requests ++ [Request.accountList g.currentUser] }, Completion.undefined)
  else
    (w, Completion.threw "ReferenceError: Account is not defined")

/-- The callback `(error, response) => ...` given to `Transaction.create` in `onSubmit`. -/
def onSubmitCallback (response : Option StatusResponse) (w : World) : World :=
  match response with
  | none => w
  | some r =>
    if r.success then
      { w with effects := w.effects ++
          [Effect.appUpdate, Effect.formReset, Effect.modalClose "newIncome",
           Effect.modalClose "newExpense"] }
    else w

/-- `onSubmit(data)`: hands `Transaction.create(data, callback)` to the collaborator. -/
def onSubmit (g : Globals) (data : List (String × String)) (w : World) : World × Completion :=
  if g.hasTransaction then
    ({ w with requests := w.requests ++ [Request.transactionCreate data] }, Completion.undefined)
  else
    (w, Completion.threw "ReferenceError: Transaction is not defined")

end CreateTransactionForm

/-! ## TransactionsPage -/

namespace TransactionsPage

/-- `renderTitle(name)`: sets the text of `.content-title`. -/
def renderTitle (name : String) (w : World) : World :=
  { w with title := name }

/-- `formatDate(date)`: the locale day, ` в `, the locale time. -/
def formatDate (b : Browser) (date : String) : String :=
  b.localeDay date ++ " в " ++ b.localeTime date

/-- `getTransactionHTML(item)`: the markup of one transaction. -/
def getTransactionHTML (b : Browser) (item : Transaction) : String :=
  "<div class=\"transaction transaction_" ++ b.toLowerCase item.type_ ++ " row\">\n" ++
  "  <div class=\"col-md-7 transaction__details\">\n" ++
  "    <div class=\"transaction__icon\">\n" ++
  "        <span class=\"fa fa-money fa-2x\"></span>\n" ++
  "    </div>\n" ++
  "    <div class=\"transaction__info\">\n" ++
  "        <h4 class=\"transaction__title\">" ++ item.name ++ "</h4>\n" ++
  "        <!-- дата -->\n" ++
  "        <div class=\"transaction__date\">" ++ formatDate b item.created_at ++ "</div>\n" ++
  "    </div>\n" ++
  "  </div>\n" ++
  "  <div class=\"col-md-3\">\n" ++
  "    <div class=\"transaction__summ\">\n" ++
  "    <!--  сумма -->\n" ++
  "        " ++ item.sum ++ " <span class=\"currency\">₽</span>\n" ++
  "    </div>\n" ++
  "  </div>\n" ++
  "  <div class=\"col-md-2 transaction__controls\">\n" ++
  "      <!-- в data-id нужно поместить id -->\n" ++
  "      <button class=\"btn btn-danger transaction__remove\" data-id=" ++ item.id ++ ">\n" ++
  "          <i class=\"fa fa-trash\"></i>  \n" ++
  "      </button>\n" ++
  "  </div>\n" ++
  "</div>"

/-- `renderTransactions(data)`: `content.innerHTML = ''`, then for each item
`content.innerHTML += this.getTransactionHTML(elem)`. -/
def renderTransactions (b : Browser) (data : List Transaction) (w : World) : World :=
  data.foldl
    (fun acc elem =>
      { acc with content := b.readBackContent (acc.content ++ getTransactionHTML b elem) })
    { w with content := b.readBackContent "" }

/-- The markup `.content` holds after `renderTransactions(data)`, whatever it held before: from
the empty markup, each item's markup is appended to what is held and the sum read back. -/
def renderedMarkup (b : Browser) (data : List Transaction) : String :=
  data.foldl (fun acc elem => b.readBackContent (acc ++ getTransactionHTML b elem))
    (b.readBackContent "")

/-- `clear()`: empty list, placeholder title, `lastOptions = null`. -/
def clear (b : Browser) (w : World) : World :=
  let w1 := renderTransactions b [] w
  let w2 := renderTitle "Название счёта" w1
  { w2 with lastOptions := JSRef.null }

/-- The callback given to `Account.get` in `render`. -/
def renderAccountCallback (response : Option AccountGetResponse) (w : World) : World × Completion :=
  match response with
  | none => (w, Completion.undefined)
  | some r =>
    if r.success then
      match r.data with
      | some account => (renderTitle account.name w, Completion.undefined)
      | none => (w, Completion.threw "TypeError: response.data is undefined")
    else (w, Completion.undefined)

/-- The callback given to `Transaction.list` in `render`. -/
def renderListCallback (b : Browser) (response : Option TransactionListResponse) (w : World) :
    World × Completion :=
  match response with
  | none => (w, Completion.undefined)
  | some r =>
    if r.success then
      match r.data with
      | some data => (renderTransactions b data w, Completion.undefined)
      | none =>
        ({ w with content := b.readBackContent "" },
          Completion.threw "TypeError: data is not iterable")
    else (w, Completion.undefined)

/-- `render(options)`. -/
def render (g : Globals) (options : JSRef Options) (w : World) : World × Completion :=
  match options with
  | JSRef.obj o =>
    let w1 := { w with lastOptions := JSRef.obj o }
    if g.hasAccount then
      let w2 := { w1 with requests := w1.requests ++ [Request.accountGet o.account_id] }
      if g.hasTransaction then
        ({ w2 with requests := w2.requests ++ [Request.transactionList o] }, Completion.undefined)
      else
        (w2, Completion.threw "ReferenceError: Transaction is not defined")
    else
      (w1, Completion.threw "ReferenceError: Account is not defined")
  | _ => (w, Completion.undefined)

/-- `update()`: `try { this.render(this.lastOptions) } catch { return null }`. -/
def update (g : Globals) (w : World) : World × Completion :=
  match render g w.lastOptions w with
  | (w1, Completion.threw _) => (w1, Completion.null)
  | (w1, _) => (w1, Completion.undefined)

/-- The callback given to `Account.remove` in `removeAccount`. -/
def removeAccountCallback (response : Option StatusResponse) (w : World) : World :=
  match response with
  | none => w
  | some r => if r.success then { w with effects := w.effects ++ [Effect.appUpdate] } else w

/-- `removeAccount()`; `confirmed` is the answer of `confirm(...)`. -/
def removeAccount (g : Globals) (b : Browser) (confirmed : Bool) (w : World) :
    World × Completion :=
  match w.lastOptions with
  | JSRef.obj o =>
    if confirmed then
      if g.hasAccount then
        (clear b { w with requests := w.requests ++ [Request.accountRemove o.account_id] },
          Completion.undefined)
      else
        (w, Completion.threw "ReferenceError: Account is not defined")
    else (w, Completion.undefined)
  | _ => (w, Completion.undefined)

/-- The callback given to `Transaction.remove` in `removeTransaction`. -/
def removeTransactionCallback (response : Option StatusResponse) (w : World) : World :=
  match response with
  | none => w
  | some r => if r.success then { w with effects := w.effects ++ [Effect.appUpdate] } else w

/-- `removeTransaction(id)`; `confirmed` is the answer of `confirm(...)`. -/
def removeTransaction (g : Globals) (confirmed : Bool) (id : String) (w : World) :
    World × Completion :=
  if confirmed then
    if g.hasTransaction then
      ({ w with requests := w.requests ++ [Request.transactionRemove id] }, Completion.undefined)
    else
      (w, Completion.threw "ReferenceError: Transaction is not defined")
  else (w, Completion.undefined)

/-- What the clicked element's `closest(...)` lookups find. -/
inductive ClickTarget where
  | removeAccount
  | transactionRemove (id : String)
  | other
  deriving DecidableEq, Repr

/-- The click listener installed by `registerEvents()`. -/
def registerEvents (g : Globals) (b : Browser) (target : ClickTarget) (confirmed : Bool)
    (w : World) : World × Completion :=
  match target with
  | ClickTarget.removeAccount => removeAccount g b confirmed w
  | ClickTarget.transactionRemove id => removeTransaction g confirmed id w
  | ClickTarget.other => (w, Completion.undefined)

/-- `constructor(element)`: throws when the element is missing; otherwise keeps the element and
installs the click listener (`registerEvents`). `lastOptions` is not assigned. -/
def constructor (element : Option Dom) : Except String World :=
  match element with
  | none => Except.error "Element was not found!"
  | some d =>
    Except.ok
      { lastOptions := JSRef.undefined, content := d.content, title := d.title,
        select := d.select, requests := [], effects := [] }

/-- A response reaching one of the two callbacks registered by `render`. -/
inductive Delivery where
  | accountGet (response : Option AccountGetResponse)
  | transactionList (response : Option TransactionListResponse)
  deriving DecidableEq, Repr

/-- The event loop runs the callback of a delivered response. -/
def deliver (b : Browser) (w : World) (d : Delivery) : World :=
  match d with
  | Delivery.accountGet r => (renderAccountCallback r w).1
  | Delivery.transactionList r => (renderListCallback b r w).1

/-- Whether a delivery goes to the `Account.get` callback. -/
def Delivery.isAccountGet : Delivery → Bool
  | Delivery.accountGet _ => true
  | Delivery.transactionList _ => false

/-- Whether a delivery goes to the `Transaction.list` callback. -/
def Delivery.isTransactionList : Delivery → Bool
  | Delivery.accountGet _ => false
  | Delivery.transactionList _ => true

/-- A successful `Account.get` response carrying the account. -/
def accountLoaded (a : Account) : Delivery :=
  Delivery.accountGet (some { success := true, data := some a })

/-- A successful `Transaction.list` response carrying the transactions. -/
def listLoaded (t : List Transaction) : Delivery :=
  Delivery.transactionList (some { success := true, data := some t })

end TransactionsPage

/-! ## Sample data -/

/-- A world with some earlier options in the select, a title and one rendered entry. -/
def sampleWorld : World :=
  { lastOptions := JSRef.obj { account_id := "7" },
    content := "<div class=\"transaction\">Rent</div>",
    title := "Savings",
    select := "<option value=\"7\">Old</option>",
    requests := [],
    effects := [] }

/-- Where the scan of `quoteAttributes` stands: in text, inside a tag, inside a quoted
attribute value, inside an attribute value written without quotes. -/
inductive Scan where
  | text
  | tag
  | quoted
  | bare
  deriving DecidableEq, Repr

/-- One pass over the characters of a markup, putting double quotes around the attribute values
written without them. -/
def quoteAttributesFrom : Scan → List Char → List Char
  | _, [] => []
  | Scan.text, c :: cs =>
    if c = '<' then c :: quoteAttributesFrom Scan.tag cs
    else c :: quoteAttributesFrom Scan.text cs
  | Scan.tag, c :: cs =>
    if c = '>' then c :: quoteAttributesFrom Scan.text cs
    else if c = Char.ofNat 34 then c :: quoteAttributesFrom Scan.quoted cs
    else if c = '=' then
      if cs.head? = some (Char.ofNat 34) then c :: quoteAttributesFrom Scan.tag cs
      else c :: Char.ofNat 34 :: quoteAttributesFrom Scan.bare cs
    else c :: quoteAttributesFrom Scan.tag cs
  | Scan.quoted, c :: cs =>
    if c = Char.ofNat 34 then c :: quoteAttributesFrom Scan.tag cs
    else c :: quoteAttributesFrom Scan.quoted cs
  | Scan.bare, c :: cs =>
    if c = '>' then Char.ofNat 34 :: c :: quoteAttributesFrom Scan.text cs
    else if c = ' ' then Char.ofNat 34 :: c :: quoteAttributesFrom Scan.tag cs
    else c :: quoteAttributesFrom Scan.bare cs

/-- The read-back of a markup whose texts and attribute values carry no markup characters:
serialisation writes every attribute value in double quotes (`data-id=5` comes back as
`data-id="5"`) and leaves the rest as written. -/
def quoteAttributes (s : String) : String :=
  String.mk (quoteAttributesFrom Scan.text s.data)

/-- Lower-casing of the ASCII capitals, every other character kept. -/
def asciiLower (s : String) : String :=
  String.mk (s.data.map fun c =>
    if 65 ≤ c.toNat ∧ c.toNat ≤ 90 then Char.ofNat (c.toNat + 32) else c)

/-- A browser for the examples: the Russian rendering of the date `2019-03-10 03:20:41`, the
lower-casing of ASCII text, and `quoteAttributes` as the read-back of `innerHTML`. -/
def sampleBrowser : Browser :=
  { localeDay := fun d => if d = "2019-03-10 03:20:41" then "10 марта 2019 г." else "Invalid Date",
    localeTime := fun d => if d = "2019-03-10 03:20:41" then "03:20" else "Invalid Date",
    toLowerCase := asciiLower,
    readBackSelect := quoteAttributes,
    readBackContent := quoteAttributes,
    readBackSelect_empty := rfl,
    readBackContent_empty := rfl }

/-- One income of account 1. -/
def sampleTransaction : Transaction :=
  { id := "5", type_ := "INCOME", name := "Pay", sum := "10", created_at := "2019-03-10 03:20:41" }

/-- Every collaborator defined. -/
def allGlobals : Globals :=
  { hasAccount := true, hasTransaction := true, currentUser := JSRef.obj "demo" }

/-- Neither `Account` nor `Transaction` defined. -/
def noGlobals : Globals :=
  { hasAccount := false, hasTransaction := false, currentUser := JSRef.undefined }

open CreateTransactionForm TransactionsPage

set_option maxRecDepth 200000

/-! ## Auxiliary facts -/

theorem renderTransactions_foldl (b : Browser) (data : List Transaction) (w : World) :
    data.foldl
        (fun acc elem =>
          { acc with
            content := b.readBackContent (acc.content ++ TransactionsPage.getTransactionHTML b elem) })
        w =
      { w with
        content :=
          data.foldl
            (fun acc elem =>
              b.readBackContent (acc ++ TransactionsPage.getTransactionHTML b elem))
            w.content } := by
  induction data generalizing w with
  | nil => rfl
  | cons a rest ih =>
    rw [List.foldl_cons, ih]
    rfl

theorem renderTransactions_eq (b : Browser) (data : List Transaction) (w : World) :
    TransactionsPage.renderTransactions b data w =
      { w with content := TransactionsPage.renderedMarkup b data } := by
  unfold TransactionsPage.renderTransactions TransactionsPage.renderedMarkup
  rw [renderTransactions_foldl]

/-- In a list with an element satisfying `p`, the last such element splits the list. -/
theorem exists_last_split {α : Type} (p : α → Bool) (l : List α) (h : ∃ x ∈ l, p x = true) :
    ∃ pre x post, l = pre ++ x :: post ∧ p x = true ∧ ∀ y ∈ post, p y = false := by
  induction l with
  | nil => simp at h
  | cons a rest ih =>
    by_cases hrest : ∃ x ∈ rest, p x = true
    · obtain ⟨pre, x, post, hl, hx, hpost⟩ := ih hrest
      exact ⟨a :: pre, x, post, by simp [hl], hx, hpost⟩
    · have hall : ∀ y ∈ rest, p y = false := by
        intro y hy
        cases hp : p y with
        | false => rfl
        | true => exact absurd ⟨y, hy, hp⟩ hrest
      obtain ⟨x, hx, hpx⟩ := h
      rcases List.mem_cons.mp hx with rfl | hx
      · exact ⟨[], x, rest, rfl, hpx, hall⟩
      · exact absurd ⟨x, hx, hpx⟩ hrest

theorem deliver_foldl_title (b : Browser) (post : List Delivery) (w : World)
    (h : ∀ d ∈ post, d.isAccountGet = false) :
    (post.foldl (deliver b) w).title = w.title := by
  induction post generalizing w with
  | nil => rfl
  | cons d rest ih =>
    rw [List.foldl_cons, ih _ (fun y hy => h y (List.mem_cons_of_mem _ hy))]
    have hd := h d (List.mem_cons_self _ _)
    cases d with
    | accountGet r => simp [Delivery.isAccountGet] at hd
    | transactionList r =>
      cases r with
      | none => rfl
      | some resp =>
        cases hs : resp.success with
        | false => simp [deliver, renderListCallback, hs]
        | true =>
          cases hdata : resp.data with
          | none => simp [deliver, renderListCallback, hs, hdata]
          | some t => simp [deliver, renderListCallback, hs, hdata, renderTransactions_eq]

theorem deliver_foldl_content (b : Browser) (post : List Delivery) (w : World)
    (h : ∀ d ∈ post, d.isTransactionList = false) :
    (post.foldl (deliver b) w).content = w.content := by
  induction post generalizing w with
  | nil => rfl
  | cons d rest ih =>
    rw [List.foldl_cons, ih _ (fun y hy => h y (List.mem_cons_of_mem _ hy))]
    have hd := h d (List.mem_cons_self _ _)
    cases d with
    | transactionList r => simp [Delivery.isTransactionList] at hd
    | accountGet r =>
      cases r with
      | none => rfl
      | some resp =>
        cases hs : resp.success with
        | false => simp [deliver, renderAccountCallback, hs]
        | true =>
          cases hdata : resp.data with
          | none => simp [deliver, renderAccountCallback, hs, hdata]
          | some a => simp [deliver, renderAccountCallback, hs, hdata, renderTitle]

/-- After any deliveries ending with a successful account, then only list deliveries, the title
is that account's name. -/
theorem title_after_last_account (b : Browser) (pre post : List Delivery) (a : Account)
    (w : World) (h : ∀ d ∈ post, d.isAccountGet = false) :
    ((pre ++ accountLoaded a :: post).foldl (deliver b) w).title = a.name := by
  rw [List.foldl_append, List.foldl_cons, deliver_foldl_title b post _ h]
  simp [accountLoaded, deliver, renderAccountCallback, renderTitle]

/-- After any deliveries ending with a successful list, then only account deliveries, the content
is the rendering of that list. -/
theorem content_after_last_list (b : Browser) (pre post : List Delivery) (t : List Transaction)
    (w : World) (h : ∀ d ∈ post, d.isTransactionList = false) :
    ((pre ++ listLoaded t :: post).foldl (deliver b) w).content = renderedMarkup b t := by
  rw [List.foldl_append, List.foldl_cons, deliver_foldl_content b post _ h]
  simp [listLoaded, deliver, renderListCallback, renderTransactions_eq]

/-! ## CreateTransactionForm.renderAccountsList -/

/-- C1 (the code at the failing input): the response carries ONE account, id `1`, whose name
is `</option><option value="2">B`. Whatever the host and the prior content, the callback empties
the select and then hands the `innerHTML` setter the markup of TWO option elements, the second
with value `2` and label `B`, values and labels that no delivered account has. In the sample
browser the select then holds exactly that markup, the same it holds after the two-account
response with accounts `1` (empty name) and `2` (name `B`). -/
theorem C1_markup_in_name_yields_two_options :
    (∀ (b : Browser) (w : World),
        (renderAccountsListCallback b
            (some ⟨true, some [⟨"1", "</option><option value=\"2\">B"⟩]⟩) w).select =
          b.readBackSelect "<option value=\"1\"></option><option value=\"2\">B</option>") ∧
      (renderAccountsListCallback sampleBrowser
          (some ⟨true, some [⟨"1", "</option><option value=\"2\">B"⟩]⟩) sampleWorld).select =
        "<option value=\"1\"></option><option value=\"2\">B</option>" ∧
      (renderAccountsListCallback sampleBrowser
          (some ⟨true, some [⟨"1", ""⟩, ⟨"2", "B"⟩]⟩) sampleWorld).select =
        "<option value=\"1\"></option><option value=\"2\">B</option>" := by
  refine ⟨?_, by decide, by decide⟩
  intro b w
  simp only [renderAccountsListCallback, addItemToTheList, List.foldl_cons, List.foldl_nil,
    b.readBackSelect_empty]
  congr 1

/-- C2 (amended): for every account-list response that is absent, or present without a data
field (whatever its success flag), the world after the callback, the select's content included,
equals the world before. The success flag is never consulted: two responses that differ only in
it have the same effect. -/
theorem C2_no_data_leaves_select_unchanged (b : Browser)
    (response : Option AccountListResponse) (w : World)
    (h : response = none ∨ ∃ r, response = some r ∧ r.data = none) :
    renderAccountsListCallback b response w = w ∧
      ∀ (s1 s2 : Bool) (d : Option (List Account)),
        renderAccountsListCallback b (some ⟨s1, d⟩) w =
          renderAccountsListCallback b (some ⟨s2, d⟩) w := by
  refine ⟨?_, fun _ _ _ => rfl⟩
  rcases h with h | ⟨r, h, hd⟩
  · subst h; rfl
  · subst h; simp [renderAccountsListCallback, hd]

/-- C2 witness: a failed response without data leaves the sample select as it was. -/
theorem C2_no_data_witness :
    ((some (AccountListResponse.mk false none) = none ∨
        ∃ r, some (AccountListResponse.mk false none) = some r ∧ r.data = none)) ∧
      renderAccountsListCallback sampleBrowser (some ⟨false, none⟩) sampleWorld = sampleWorld :=
  ⟨Or.inr ⟨⟨false, none⟩, rfl, rfl⟩,
    (C2_no_data_leaves_select_unchanged sampleBrowser (some ⟨false, none⟩) sampleWorld
      (Or.inr ⟨⟨false, none⟩, rfl, rfl⟩)).1⟩

/-- C2 counterexample: a response with a false success flag that carries a data list replaces
the content of the select (read in the sample browser, where the option markup reads back as
written). -/
theorem C2_failed_response_with_data_changes_select :
    sampleWorld.select = "<option value=\"7\">Old</option>" ∧
      (renderAccountsListCallback sampleBrowser
          (some ⟨false, some [⟨"1", "Cash"⟩]⟩) sampleWorld).select =
        "<option value=\"1\">Cash</option>" ∧
      (renderAccountsListCallback sampleBrowser
          (some ⟨false, some [⟨"1", "Cash"⟩]⟩) sampleWorld).select ≠
        sampleWorld.select := by
  decide

/-! ## CreateTransactionForm.onSubmit -/

/-- C3: for every form data, `onSubmit` hands exactly one `Transaction.create(data)` request to
the collaborator and does nothing else; when the response is successful the callback's effects
are exactly `App.update()`, the form's `reset()`, and the closing of the modals `newIncome` and
`newExpense`, each once; when the response is absent or not successful the world is unchanged. -/
theorem C3_onSubmit_effects (g : Globals) (data : List (String × String)) (w : World)
    (hT : g.hasTransaction = true) :
    onSubmit g data w =
        ({ w with requests := w.requests ++ [Request.transactionCreate data] },
          Completion.undefined) ∧
      (∀ r : StatusResponse, r.success = true →
        onSubmitCallback (some r) (onSubmit g data w).1 =
          { (onSubmit g data w).1 with
            effects := w.effects ++
              [Effect.appUpdate, Effect.formReset, Effect.modalClose "newIncome",
               Effect.modalClose "newExpense"] }) ∧
      (∀ r : StatusResponse, r.success = false →
        onSubmitCallback (some r) (onSubmit g data w).1 = (onSubmit g data w).1) ∧
      onSubmitCallback none (onSubmit g data w).1 = (onSubmit g data w).1 := by
  refine ⟨by simp [onSubmit, hT], ?_, ?_, rfl⟩
  · intro r hr
    simp [onSubmitCallback, onSubmit, hT, hr]
  · intro r hr
    simp [onSubmitCallback, hr]

/-- C3 witness: a submission in the sample world, answered with success. -/
theorem C3_onSubmit_witness :
    allGlobals.hasTransaction = true ∧
      (onSubmitCallback (some ⟨true⟩)
          (onSubmit allGlobals [("name", "Rent"), ("sum", "100")] sampleWorld).1).effects =
        [Effect.appUpdate, Effect.formReset, Effect.modalClose "newIncome",
          Effect.modalClose "newExpense"] := by
  refine ⟨rfl, ?_⟩
  rw [(C3_onSubmit_effects allGlobals [("name", "Rent"), ("sum", "100")] sampleWorld rfl).2.1
    ⟨true⟩ rfl]
  rfl

/-! ## TransactionsPage.clear -/

/-- C4: for every page state, after `clear()` the field `lastOptions` is `null`, the markup of
`.content` is empty (the rendering of zero transactions), the title is the placeholder
`Название счёта`, and nothing else has changed. -/
theorem C4_clear_empties_page (b : Browser) (w : World) :
    clear b w =
        { w with lastOptions := JSRef.null, content := "", title := "Название счёта" } ∧
      (clear b w).content =
        String.join (([] : List Transaction).map (getTransactionHTML b)) ∧
      (clear b w).lastOptions.truthy = false := by
  refine ⟨?_, ?_, ?_⟩ <;>
    simp [clear, renderTransactions, renderTitle, String.join, JSRef.truthy,
      b.readBackContent_empty]

/-! ## TransactionsPage.removeAccount and removeTransaction -/

/-- C5: with `lastOptions` present and the prompt confirmed, `removeAccount` hands exactly one
`Account.remove` request to the collaborator, for the `account_id` that `lastOptions` held at the
call, and returns with the page cleared (empty content, placeholder title, `lastOptions` null).
Whatever response comes later, the page stays cleared: a successful one adds one `App.update()`
and nothing else, a failed or missing one changes nothing. -/
theorem C5_removeAccount_clears_at_once (g : Globals) (b : Browser) (w : World) (o : Options)
    (hopt : w.lastOptions = JSRef.obj o) (hA : g.hasAccount = true) :
    removeAccount g b true w =
        ({ w with
            lastOptions := JSRef.null, content := "", title := "Название счёта",
            requests := w.requests ++ [Request.accountRemove o.account_id] },
          Completion.undefined) ∧
      (∀ r : StatusResponse, r.success = true →
        removeAccountCallback (some r) (removeAccount g b true w).1 =
          { (removeAccount g b true w).1 with effects := w.effects ++ [Effect.appUpdate] }) ∧
      (∀ r : StatusResponse, r.success = false →
        removeAccountCallback (some r) (removeAccount g b true w).1 =
          (removeAccount g b true w).1) ∧
      removeAccountCallback none (removeAccount g b true w).1 = (removeAccount g b true w).1 := by
  have hrun : removeAccount g b true w =
      ({ w with
          lastOptions := JSRef.null, content := "", title := "Название счёта",
          requests := w.requests ++ [Request.accountRemove o.account_id] },
        Completion.undefined) := by
    simp [removeAccount, hopt, hA, clear, renderTransactions, renderTitle,
      b.readBackContent_empty]
  refine ⟨hrun, ?_, ?_, rfl⟩
  · intro r hr
    simp [removeAccountCallback, hrun, hr]
  · intro r hr
    simp [removeAccountCallback, hr]

/-- C5 witness: the sample page (account 7) with the prompt confirmed. -/
theorem C5_removeAccount_witness :
    sampleWorld.lastOptions = JSRef.obj { account_id := "7" } ∧
      allGlobals.hasAccount = true ∧
      removeAccount allGlobals sampleBrowser true sampleWorld =
        ({ sampleWorld with
            lastOptions := JSRef.null, content := "", title := "Название счёта",
            requests := sampleWorld.requests ++ [Request.accountRemove "7"] },
          Completion.undefined) :=
  ⟨rfl, rfl,
    (C5_removeAccount_clears_at_once allGlobals sampleBrowser sampleWorld
      { account_id := "7" } rfl rfl).1⟩

/-- C6: for every transaction id and page state, when the prompt is declined
`removeTransaction(id)` returns with the world unchanged: no request is issued, no `App.update()`
is made, and `lastOptions`, content and title are as before; the same holds when the call comes
from the click listener. -/
theorem C6_removeTransaction_declined (g : Globals) (b : Browser) (id : String) (w : World) :
    removeTransaction g false id w = (w, Completion.undefined) ∧
      registerEvents g b (ClickTarget.transactionRemove id) false w =
        (w, Completion.undefined) := by
  constructor <;> simp [registerEvents, removeTransaction]

/-! ## TransactionsPage.render -/

/-- C7: `render` with `undefined` or `null` options changes nothing and issues no request. With
options present (and both collaborators defined) it stores exactly those options in
`lastOptions` and issues, in this order and only these, one `Account.get` for
`options.account_id` and one `Transaction.list` for `options`, leaving title and content as they
were. The `Account.get` callback never touches the content and changes the title only for a
successful response, to the name it carries; the `Transaction.list` callback never touches the
title and changes the content only for a successful response, to the rendering of the list it
carries (`renderTransactions`), and nothing but the content. -/
theorem C7_render_requests (g : Globals) (b : Browser) (w : World) :
    render g JSRef.undefined w = (w, Completion.undefined) ∧
      render g JSRef.null w = (w, Completion.undefined) ∧
      (∀ o : Options, g.hasAccount = true → g.hasTransaction = true →
        render g (JSRef.obj o) w =
          ({ w with
              lastOptions := JSRef.obj o,
              requests := w.requests ++
                [Request.accountGet o.account_id, Request.transactionList o] },
            Completion.undefined)) ∧
      (∀ (r : Option AccountGetResponse) (w1 : World),
        (renderAccountCallback r w1).1.content = w1.content ∧
          ((renderAccountCallback r w1).1.title ≠ w1.title →
            ∃ resp, r = some resp ∧ resp.success = true)) ∧
      (∀ (r : Option TransactionListResponse) (w1 : World),
        (renderListCallback b r w1).1.title = w1.title ∧
          ((renderListCallback b r w1).1.content ≠ w1.content →
            ∃ resp, r = some resp ∧ resp.success = true)) ∧
      (∀ (a : Account) (w1 : World),
        (renderAccountCallback (some ⟨true, some a⟩) w1).1 = { w1 with title := a.name }) ∧
      (∀ (t : List Transaction) (w1 : World),
        (renderListCallback b (some ⟨true, some t⟩) w1).1 =
          { w1 with content := (renderTransactions b t w1).content }) := by
  refine ⟨rfl, rfl, ?_, ?_, ?_, ?_, ?_⟩
  · intro o hA hT
    simp [render, hA, hT]
  · intro r w1
    cases r with
    | none => simp [renderAccountCallback]
    | some resp =>
      cases hs : resp.success with
      | false => simp [renderAccountCallback, hs]
      | true =>
        cases hd : resp.data with
        | none => simp [renderAccountCallback, hs, hd]
        | some a => simp [renderAccountCallback, hs, hd, renderTitle]
  · intro r w1
    cases r with
    | none => simp [renderListCallback]
    | some resp =>
      cases hs : resp.success with
      | false => simp [renderListCallback, hs]
      | true =>
        cases hd : resp.data with
        | none => simp [renderListCallback, hs, hd]
        | some t => simp [renderListCallback, hs, hd, renderTransactions_eq]
  · intro a w1
    simp [renderAccountCallback, renderTitle]
  · intro t w1
    simp [renderListCallback, renderTransactions_eq]

/-- C7 witness: rendering account 3 over the sample page with both collaborators defined. -/
theorem C7_render_witness :
    allGlobals.hasAccount = true ∧ allGlobals.hasTransaction = true ∧
      render allGlobals (JSRef.obj { account_id := "3" }) sampleWorld =
        ({ sampleWorld with
            lastOptions := JSRef.obj { account_id := "3" },
            requests := sampleWorld.requests ++
              [Request.accountGet "3", Request.transactionList { account_id := "3" }] },
          Completion.undefined) :=
  ⟨rfl, rfl,
    (C7_render_requests allGlobals sampleBrowser sampleWorld).2.2.1 { account_id := "3" } rfl rfl⟩

/-- C8: after `render(x)` followed at once by `render(y)` (the four requests issued in call
order), for every order `ds` in which the four successful responses are delivered: the final
title is the account name of the `Account.get` response delivered last and the final content is
the rendering of the `Transaction.list` response delivered last (what `renderTransactions` of
its list leaves in `.content`, `renderedMarkup`), each of them one of the two responses of its
kind; the outcome is the same had the two `render` calls been made in the other
order; and when the responses for `x` arrive after those for `y` the page shows the data of
`x`. -/
theorem C8_last_delivered_response_wins (g : Globals) (b : Browser) (w : World)
    (x y : Options) (ax ay : Account) (tx ty : List Transaction)
    (hA : g.hasAccount = true) (hT : g.hasTransaction = true) :
    (render g (JSRef.obj y) (render g (JSRef.obj x) w).1).1.requests =
        w.requests ++
          [Request.accountGet x.account_id, Request.transactionList x,
           Request.accountGet y.account_id, Request.transactionList y] ∧
      (∀ ds : List Delivery,
        ds.Perm [accountLoaded ax, listLoaded tx, accountLoaded ay, listLoaded ty] →
        (∃ pre a post, ds = pre ++ accountLoaded a :: post ∧ (a = ax ∨ a = ay) ∧
            (∀ d ∈ post, d.isAccountGet = false) ∧
            (ds.foldl (deliver b) (render g (JSRef.obj y) (render g (JSRef.obj x) w).1).1).title =
              a.name) ∧
          (∃ pre t post, ds = pre ++ listLoaded t :: post ∧ (t = tx ∨ t = ty) ∧
            (∀ d ∈ post, d.isTransactionList = false) ∧
            (ds.foldl (deliver b)
                (render g (JSRef.obj y) (render g (JSRef.obj x) w).1).1).content =
              renderedMarkup b t ∧
            (∀ w0 : World, (renderTransactions b t w0).content = renderedMarkup b t)) ∧
          (ds.foldl (deliver b) (render g (JSRef.obj x) (render g (JSRef.obj y) w).1).1).title =
            (ds.foldl (deliver b) (render g (JSRef.obj y) (render g (JSRef.obj x) w).1).1).title ∧
          (ds.foldl (deliver b) (render g (JSRef.obj x) (render g (JSRef.obj y) w).1).1).content =
            (ds.foldl (deliver b)
              (render g (JSRef.obj y) (render g (JSRef.obj x) w).1).1).content) ∧
      ([accountLoaded ay, listLoaded ty, accountLoaded ax, listLoaded tx].foldl (deliver b)
          (render g (JSRef.obj y) (render g (JSRef.obj x) w).1).1).title = ax.name ∧
      ([accountLoaded ay, listLoaded ty, accountLoaded ax, listLoaded tx].foldl (deliver b)
          (render g (JSRef.obj y) (render g (JSRef.obj x) w).1).1).content =
        renderedMarkup b tx := by
  refine ⟨by simp [render, hA, hT], ?_, ?_, ?_⟩
  · intro ds hperm
    have hmem : ∀ d, d ∈ ds ↔
        d ∈ [accountLoaded ax, listLoaded tx, accountLoaded ay, listLoaded ty] :=
      fun d => hperm.mem_iff
    -- the last account delivery
    obtain ⟨pre, d, post, hds, hd, hpost⟩ := exists_last_split Delivery.isAccountGet ds
      ⟨accountLoaded ax, (hmem _).2 (by simp), rfl⟩
    have hdmem : d ∈ ds := by rw [hds]; simp
    have hda : ∃ a, d = accountLoaded a ∧ (a = ax ∨ a = ay) := by
      have := (hmem d).1 hdmem
      simp only [List.mem_cons, List.mem_singleton, List.not_mem_nil, or_false] at this
      rcases this with h | h | h | h
      · exact ⟨ax, h, Or.inl rfl⟩
      · rw [h] at hd; simp [listLoaded, Delivery.isAccountGet] at hd
      · exact ⟨ay, h, Or.inr rfl⟩
      · rw [h] at hd; simp [listLoaded, Delivery.isAccountGet] at hd
    obtain ⟨a, rfl, ha⟩ := hda
    have htitle : ∀ w0 : World, (ds.foldl (deliver b) w0).title = a.name := by
      intro w0
      rw [hds]
      exact title_after_last_account b pre post a w0 hpost
    -- the last list delivery
    obtain ⟨pre2, d2, post2, hds2, hd2, hpost2⟩ := exists_last_split Delivery.isTransactionList ds
      ⟨listLoaded tx, (hmem _).2 (by simp), rfl⟩
    have hdmem2 : d2 ∈ ds := by rw [hds2]; simp
    have hdt : ∃ t, d2 = listLoaded t ∧ (t = tx ∨ t = ty) := by
      have := (hmem d2).1 hdmem2
      simp only [List.mem_cons, List.mem_singleton, List.not_mem_nil, or_false] at this
      rcases this with h | h | h | h
      · rw [h] at hd2; simp [accountLoaded, Delivery.isTransactionList] at hd2
      · exact ⟨tx, h, Or.inl rfl⟩
      · rw [h] at hd2; simp [accountLoaded, Delivery.isTransactionList] at hd2
      · exact ⟨ty, h, Or.inr rfl⟩
    obtain ⟨t, rfl, ht⟩ := hdt
    have hcontent : ∀ w0 : World, (ds.foldl (deliver b) w0).content = renderedMarkup b t := by
      intro w0
      rw [hds2]
      exact content_after_last_list b pre2 post2 t w0 hpost2
    refine ⟨⟨pre, a, post, hds, ha, hpost, htitle _⟩, ⟨pre2, t, post2, hds2, ht, hpost2,
      hcontent _, fun w0 => by rw [renderTransactions_eq]⟩, ?_, ?_⟩
    · rw [htitle, htitle]
    · rw [hcontent, hcontent]
  · exact title_after_last_account b [accountLoaded ay, listLoaded ty] [listLoaded tx] ax _
      (by simp [listLoaded, Delivery.isAccountGet])
  · exact content_after_last_list b [accountLoaded ay, listLoaded ty, accountLoaded ax] [] tx _
      (by simp)

/-- C8 witness: accounts 1 and 2 rendered in that order, the responses for account 1 arriving
last; the page ends up showing the name of account 1 and the one transaction of account 1, as the
sample browser reads it back. -/
theorem C8_last_delivered_witness :
    allGlobals.hasAccount = true ∧ allGlobals.hasTransaction = true ∧
      ([accountLoaded ⟨"2", "Card"⟩, listLoaded [], accountLoaded ⟨"1", "Cash"⟩,
          listLoaded [sampleTransaction]].foldl
        (deliver sampleBrowser)
        (render allGlobals (JSRef.obj { account_id := "2" })
          (render allGlobals (JSRef.obj { account_id := "1" }) sampleWorld).1).1).title =
        "Cash" ∧
      ([accountLoaded ⟨"2", "Card"⟩, listLoaded [], accountLoaded ⟨"1", "Cash"⟩,
          listLoaded [sampleTransaction]].foldl
        (deliver sampleBrowser)
        (render allGlobals (JSRef.obj { account_id := "2" })
          (render allGlobals (JSRef.obj { account_id := "1" }) sampleWorld).1).1).content =
        "<div class=\"transaction transaction_income row\">\n" ++
        "  <div class=\"col-md-7 transaction__details\">\n" ++
        "    <div class=\"transaction__icon\">\n" ++
        "        <span class=\"fa fa-money fa-2x\"></span>\n" ++
        "    </div>\n" ++
        "    <div class=\"transaction__info\">\n" ++
        "        <h4 class=\"transaction__title\">Pay</h4>\n" ++
        "        <!-- дата -->\n" ++
        "        <div class=\"transaction__date\">10 марта 2019 г. в 03:20</div>\n" ++
        "    </div>\n" ++
        "  </div>\n" ++
        "  <div class=\"col-md-3\">\n" ++
        "    <div class=\"transaction__summ\">\n" ++
        "    <!--  сумма -->\n" ++
        "        10 <span class=\"currency\">₽</span>\n" ++
        "    </div>\n" ++
        "  </div>\n" ++
        "  <div class=\"col-md-2 transaction__controls\">\n" ++
        "      <!-- в data-id нужно поместить id -->\n" ++
        "      <button class=\"btn btn-danger transaction__remove\" data-id=\"5\">\n" ++
        "          <i class=\"fa fa-trash\"></i>  \n" ++
        "      </button>\n" ++
        "  </div>\n" ++
        "</div>" := by
  refine ⟨rfl, rfl, ?_, ?_⟩
  · exact (C8_last_delivered_response_wins allGlobals sampleBrowser sampleWorld
      { account_id := "1" } { account_id := "2" } ⟨"1", "Cash"⟩ ⟨"2", "Card"⟩
      [sampleTransaction] [] rfl rfl).2.2.1
  · rw [(C8_last_delivered_response_wins allGlobals sampleBrowser sampleWorld
      { account_id := "1" } { account_id := "2" } ⟨"1", "Cash"⟩ ⟨"2", "Card"⟩
      [sampleTransaction] [] rfl rfl).2.2.2]
    decide

/-! ## TransactionsPage.update -/

/-- C9: for every page state, `update()` runs `render` on the stored `lastOptions` (the world
after `update` is the world after that `render`); when that `render` throws, `update` returns
`null`; and `update` itself never throws. When `render` returns normally `update` returns
`undefined`. -/
theorem C9_update_swallows_errors (g : Globals) (w : World) :
    (update g w).1 = (render g w.lastOptions w).1 ∧
      (∀ e, (render g w.lastOptions w).2 = Completion.threw e →
        (update g w).2 = Completion.null) ∧
      (∀ e, (update g w).2 ≠ Completion.threw e) ∧
      ((render g w.lastOptions w).2 = Completion.undefined →
        (update g w).2 = Completion.undefined) := by
  unfold update
  cases hr : render g w.lastOptions w with
  | mk w1 c =>
    cases c <;> simp

/-- C9 witness: with no collaborator defined, `render` on the sample page throws and `update`
returns `null`. -/
theorem C9_update_witness :
    (render noGlobals sampleWorld.lastOptions sampleWorld).2 =
        Completion.threw "ReferenceError: Account is not defined" ∧
      (update noGlobals sampleWorld).2 = Completion.null :=
  ⟨rfl, (C9_update_swallows_errors noGlobals sampleWorld).2.1
    "ReferenceError: Account is not defined" rfl⟩

/-- C10 (amended): a failed `update()` is not a transition to the empty state. For every page in
the rendered state (`lastOptions` present), an `update()` whose `render` call throws returns
`null` and leaves `lastOptions` present with the value it had, and title and content as they
were; `clear()` is what makes `lastOptions` absent (null); and a newly constructed page is in the
empty state (`lastOptions` undefined). -/
theorem C10_failed_update_keeps_lastOptions (g : Globals) (b : Browser) (w : World)
    (o : Options) (hopt : w.lastOptions = JSRef.obj o)
    (hthrow : ∃ e, (render g w.lastOptions w).2 = Completion.threw e) :
    (update g w).2 = Completion.null ∧
      (update g w).1.lastOptions = JSRef.obj o ∧
      (update g w).1.lastOptions.truthy = true ∧
      (update g w).1.title = w.title ∧
      (update g w).1.content = w.content ∧
      (clear b w).lastOptions = JSRef.null ∧
      (∀ d : Dom, ∃ page, TransactionsPage.constructor (some d) = Except.ok page ∧
        page.lastOptions = JSRef.undefined ∧ page.lastOptions.truthy = false) := by
  obtain ⟨e, he⟩ := hthrow
  have hnot : ¬ (g.hasAccount = true ∧ g.hasTransaction = true) := by
    rintro ⟨hA, hT⟩
    simp [render, hopt, hA, hT] at he
  refine ⟨?_, ?_, ?_, ?_, ?_, rfl, fun d => ⟨_, rfl, rfl, rfl⟩⟩ <;>
    cases hA : g.hasAccount <;> cases hT : g.hasTransaction <;>
    simp_all [update, render, JSRef.truthy]

/-- C10 witness: the sample page (account 7) with no collaborator defined. -/
theorem C10_failed_update_witness :
    sampleWorld.lastOptions = JSRef.obj { account_id := "7" } ∧
      (∃ e, (render noGlobals sampleWorld.lastOptions sampleWorld).2 = Completion.threw e) ∧
      (update noGlobals sampleWorld).1.lastOptions = JSRef.obj { account_id := "7" } :=
  ⟨rfl, ⟨_, rfl⟩,
    (C10_failed_update_keeps_lastOptions noGlobals sampleBrowser sampleWorld
      { account_id := "7" } rfl ⟨_, rfl⟩).2.1⟩

/-- C10 counterexample: the sample page is in the rendered state (account 7); with `Account`
undefined its `render` throws, `update()` returns `null`, and `lastOptions` is still the object
for account 7, not absent, whereas `clear()` on the same page leaves `null`. -/
theorem C10_failed_update_stays_rendered :
    sampleWorld.lastOptions = JSRef.obj { account_id := "7" } ∧
      (render noGlobals sampleWorld.lastOptions sampleWorld).2 =
        Completion.threw "ReferenceError: Account is not defined" ∧
      (update noGlobals sampleWorld).2 = Completion.null ∧
      (update noGlobals sampleWorld).1.lastOptions = JSRef.obj { account_id := "7" } ∧
      (update noGlobals sampleWorld).1.lastOptions.truthy = true ∧
      (clear sampleBrowser sampleWorld).lastOptions = JSRef.null := by
  decide

end BhjDiploma
